import Mathlib

/-!
Shallow embedding of the `policy-core` crate: the policy gate, the context
state machine's authorized accessors, the taint/sanitize/sink pipeline, the
secret redaction wrapper and the audit event scrubber, together with theorems
settling the specification claims about them.

Rust strings are modelled as `List Char` where character-level operations
matter (sanitizer, audit scrubbing) and as Lean `String` elsewhere.
-/

/-! ## Rust character classification and string primitives -/

/-- Embedding of Rust `char::is_control`: the Unicode `Cc` category,
i.e. U+0000..U+001F and U+007F..U+009F. -/
def rustCharIsControl (c : Char) : Bool :=
  c.toNat ≤ 0x1F || (0x7F ≤ c.toNat && c.toNat ≤ 0x9F)

/-- Embedding of Rust `char::is_whitespace`: the Unicode `White_Space`
property (code points as of the Unicode table used by Rust). -/
def rustCharIsWhitespace (c : Char) : Bool :=
  c.toNat == 0x09 || c.toNat == 0x0A || c.toNat == 0x0B || c.toNat == 0x0C ||
  c.toNat == 0x0D || c.toNat == 0x20 || c.toNat == 0x85 || c.toNat == 0xA0 ||
  c.toNat == 0x1680 || (0x2000 ≤ c.toNat && c.toNat ≤ 0x200A) ||
  c.toNat == 0x2028 || c.toNat == 0x2029 || c.toNat == 0x202F ||
  c.toNat == 0x205F || c.toNat == 0x3000

/-- Embedding of Rust `char::len_utf8`: number of bytes of the UTF-8
encoding of a character. -/
def rustLenUtf8 (c : Char) : Nat :=
  if c.toNat < 0x80 then 1
  else if c.toNat < 0x800 then 2
  else if c.toNat < 0x10000 then 3
  else 4

/-- Embedding of Rust `str::len`: the UTF-8 byte length of a string. -/
def strByteLen (s : List Char) : Nat :=
  (s.map rustLenUtf8).sum

/-- Embedding of Rust `str::trim_start`: drop leading whitespace. -/
def rustTrimStart (s : List Char) : List Char :=
  s.dropWhile rustCharIsWhitespace

/-- Embedding of Rust `str::trim_end`: drop trailing whitespace. -/
def rustTrimEnd (s : List Char) : List Char :=
  (s.reverse.dropWhile rustCharIsWhitespace).reverse

/-- Embedding of Rust `str::trim`: drop leading and trailing whitespace. -/
def rustTrim (s : List Char) : List Char :=
  rustTrimEnd (rustTrimStart s)

/-! ## Taint pipeline wrappers (`tainted.rs`, `verified.rs`) -/

/-- Embedding of `Tainted<T>` (`tainted.rs`): marks a value as untrusted. -/
structure Tainted (α : Type) where
  inner : α
deriving DecidableEq

/-- Embedding of `Tainted::new`. -/
def Tainted.new {α : Type} (value : α) : Tainted α :=
  ⟨value⟩

/-- Embedding of `Tainted::into_inner` (crate-private extraction). -/
def Tainted.into_inner {α : Type} (t : Tainted α) : α :=
  t.inner

/-- Embedding of `Verified<T>` (`verified.rs`): a value that passed
sanitization. -/
structure Verified (α : Type) where
  inner : α
deriving DecidableEq

/-- Embedding of `Verified::new_unchecked` (sanitizer-internal constructor). -/
def Verified.new_unchecked {α : Type} (value : α) : Verified α :=
  ⟨value⟩

/-- Embedding of `Verified::into_inner`. -/
def Verified.into_inner {α : Type} (v : Verified α) : α :=
  v.inner

/-! ## Sanitizer (`sanitizer.rs`) -/

/-- Embedding of `SanitizationErrorKind` (`sanitizer.rs`). -/
inductive SanitizationErrorKind where
  | InvalidInput
  | ForbiddenPattern
  | MalformedInput
  | Empty
  | TooLong
  | ContainsControlChars
deriving DecidableEq

/-- Embedding of `SanitizationError` (`sanitizer.rs`): kind plus message. -/
structure SanitizationError where
  kind : SanitizationErrorKind
  message : String
deriving DecidableEq

/-- Embedding of `SanitizationError::new`. -/
def SanitizationError.new (kind : SanitizationErrorKind) (message : String) :
    SanitizationError :=
  ⟨kind, message⟩

/-- Embedding of `StringSanitizer` (`sanitizer.rs`): carries the configured
maximum length. `StringSanitizer::new` asserts `max_len > 0`; the claims about
`sanitize` take that positivity as a hypothesis. -/
structure StringSanitizer where
  max_len : Nat
deriving DecidableEq

/-- Embedding of `StringSanitizer::is_control_char`:
`c.is_control() || c == '\u{007F}'`. -/
def StringSanitizer.is_control_char (c : Char) : Bool :=
  rustCharIsControl c || c.toNat == 0x7F

/-- Embedding of `<StringSanitizer as Sanitizer<String>>::sanitize`
(`sanitizer.rs` lines 312-347): trim, then reject empty, then reject control
characters, then reject over-length, else wrap the trimmed string. -/
def StringSanitizer.sanitize (self : StringSanitizer)
    (input : Tainted (List Char)) :
    Except SanitizationError (Verified (List Char)) :=
  let raw := input.into_inner
  let trimmed := rustTrim raw
  if trimmed.isEmpty then
    .error (SanitizationError.new .Empty
      "input is empty or contains only whitespace")
  else if trimmed.any StringSanitizer.is_control_char then
    .error (SanitizationError.new .ContainsControlChars
      "input contains control or non-printable characters")
  else if strByteLen trimmed > self.max_len then
    .error (SanitizationError.new .TooLong
      ("input exceeds maximum length of " ++ toString self.max_len))
  else
    .ok (Verified.new_unchecked trimmed)

/-- Kind of the error produced by `sanitize`, or `none` on success. -/
def sanitizeErrKind (san : StringSanitizer) (input : Tainted (List Char)) :
    Option SanitizationErrorKind :=
  match san.sanitize input with
  | .error e => some e.kind
  | .ok _ => none

/-! ### Specification model of the sanitize algorithm (for claim C3)

The following definitions are modelled from the specification's words, not
from the source, so that the source embedding above can be compared against
them: "(b) trim leading/trailing whitespace; (c) if the trimmed result is
empty, fail with kind Empty; (d) if any remaining character is a control
character (category C0, C1, or DEL) fail with kind ContainsControlChars;
(e) if length exceeds a configured maximum, fail with kind TooLong;
(f) otherwise wrap the trimmed string as Verified." -/

/-- Spec model: a C0 control character (U+0000..U+001F). -/
def specIsC0 (c : Char) : Bool :=
  c.toNat ≤ 0x1F

/-- Spec model: a C1 control character (U+0080..U+009F). -/
def specIsC1 (c : Char) : Bool :=
  0x80 ≤ c.toNat && c.toNat ≤ 0x9F

/-- Spec model: a control character in the sense of the spec algorithm,
"category C0, C1, or DEL". -/
def specControlChar (c : Char) : Bool :=
  specIsC0 c || specIsC1 c || c.toNat == 0x7F

/-- Spec model of the StringSanitizer reference algorithm, step for step as
written in the specification. -/
def sanitizeSpec (san : StringSanitizer) (input : Tainted (List Char)) :
    Except SanitizationError (Verified (List Char)) :=
  let trimmed := rustTrim input.into_inner
  if trimmed.isEmpty then
    .error (SanitizationError.new .Empty
      "input is empty or contains only whitespace")
  else if trimmed.any specControlChar then
    .error (SanitizationError.new .ContainsControlChars
      "input contains control or non-printable characters")
  else if strByteLen trimmed > san.max_len then
    .error (SanitizationError.new .TooLong
      ("input exceeds maximum length of " ++ toString san.max_len))
  else
    .ok (Verified.new_unchecked trimmed)

/-! ## Errors (`error.rs`) -/

/-- Embedding of `ViolationKind` (`error.rs` lines 112-127). -/
inductive ViolationKind where
  | Unauthenticated
  | Unauthorized (action : String)
  | MissingLogCapability
  | MissingHttpCapability
  | MissingAuditCapability
deriving DecidableEq

/-- Embedding of `Violation` (`error.rs`): kind plus message. -/
structure Violation where
  kind : ViolationKind
  message : String
deriving DecidableEq

/-- Embedding of `Violation::new`. -/
def Violation.new (kind : ViolationKind) (message : String) : Violation :=
  ⟨kind, message⟩

/-! ## Capability tokens (`capability.rs`, `audit/capability.rs`) -/

/-- Embedding of `LogCap`: data-less proof token for logging. -/
inductive LogCap where
  | mk
deriving DecidableEq

/-- Embedding of `LogCap::new` (crate-private). -/
def LogCap.new : LogCap :=
  .mk

/-- Embedding of `HttpCap`: data-less proof token for outbound calls. -/
inductive HttpCap where
  | mk
deriving DecidableEq

/-- Embedding of `HttpCap::new` (crate-private). -/
def HttpCap.new : HttpCap :=
  .mk

/-- Embedding of `AuditCap`: data-less proof token for audit emission. -/
inductive AuditCap where
  | mk
deriving DecidableEq

/-- Embedding of `AuditCap::new` (crate-private). -/
def AuditCap.new : AuditCap :=
  .mk

/-! ## Effect facades (`logging.rs`, `http.rs`, `audit/policy_audit.rs`) -/

/-- Embedding of `PolicyLog`: the capability-gated logger, carrying the
request id of the context that produced it. -/
structure PolicyLog where
  request_id : String
deriving DecidableEq

/-- Embedding of `PolicyLog::new` (crate-private). -/
def PolicyLog.new (request_id : String) : PolicyLog :=
  ⟨request_id⟩

/-- Embedding of `PolicyHttp`: the capability-gated outbound-call facade,
whose request log starts empty; no field is relevant to the claims. -/
inductive PolicyHttp where
  | mk
deriving DecidableEq

/-- Embedding of `PolicyHttp::new` (crate-private). -/
def PolicyHttp.new : PolicyHttp :=
  .mk

/-- Embedding of `PolicyAudit`: the capability-gated audit emitter. -/
inductive PolicyAudit where
  | mk
deriving DecidableEq

/-- Embedding of `PolicyAudit::new` (crate-private). -/
def PolicyAudit.new : PolicyAudit :=
  .mk

/-! ## Request metadata and policy requirements (`request.rs`, `policy.rs`) -/

/-- Embedding of `Principal` (`request.rs`). -/
structure Principal where
  id : String
  name : String
deriving DecidableEq

/-- Embedding of `RequestMeta` (`request.rs`). -/
structure RequestMeta where
  request_id : String
  principal : Option Principal
deriving DecidableEq

/-- Embedding of `PolicyReq` (`policy.rs`). -/
inductive PolicyReq where
  | Authenticated
  | Authorized (action : String)
deriving DecidableEq

/-- Embedding of `actions::LOG` (`policy.rs`). -/
def actions.LOG : String :=
  "log"

/-- Embedding of `actions::HTTP` (`policy.rs`). -/
def actions.HTTP : String :=
  "http"

/-- Embedding of `actions::AUDIT` (`policy.rs`). -/
def actions.AUDIT : String :=
  "audit"

/-! ## Authorized context (`context.rs`) -/

/-- Embedding of `Ctx<Authorized>` (`context.rs`): request id, principal and
the three optional capability tokens. -/
structure Ctx where
  request_id : String
  principal : Option Principal
  log_cap : Option LogCap
  http_cap : Option HttpCap
  audit_cap : Option AuditCap
deriving DecidableEq

/-- Embedding of `Ctx::new_authorized` (`context.rs`, crate-private). -/
def Ctx.new_authorized (request_id : String) (principal : Option Principal)
    (log_cap : Option LogCap) (http_cap : Option HttpCap)
    (audit_cap : Option AuditCap) : Ctx :=
  ⟨request_id, principal, log_cap, http_cap, audit_cap⟩

/-- Embedding of `Ctx::<Authorized>::log` (`context.rs` lines 286-295). -/
def Ctx.log (self : Ctx) : Except Violation PolicyLog :=
  if self.log_cap.isSome then
    .ok (PolicyLog.new self.request_id)
  else
    .error (Violation.new .MissingLogCapability "Logging capability not granted")

/-- Embedding of `Ctx::<Authorized>::http` (`context.rs` lines 325-334). -/
def Ctx.http (self : Ctx) : Except Violation PolicyHttp :=
  if self.http_cap.isSome then
    .ok PolicyHttp.new
  else
    .error (Violation.new .MissingHttpCapability "HTTP capability not granted")

/-- Embedding of `Ctx::<Authorized>::audit` (`context.rs` lines 367-376). -/
def Ctx.audit (self : Ctx) : Except Violation PolicyAudit :=
  if self.audit_cap.isSome then
    .ok PolicyAudit.new
  else
    .error (Violation.new .MissingAuditCapability "Audit capability not granted")

/-! ## Policy gate (`gate.rs`) -/

/-- Embedding of `PolicyGate` (`gate.rs`): request metadata plus accumulated
requirements. -/
structure PolicyGate where
  meta : RequestMeta
  requirements : List PolicyReq
deriving DecidableEq

/-- Embedding of `PolicyGate::new`. -/
def PolicyGate.new (meta : RequestMeta) : PolicyGate :=
  ⟨meta, []⟩

/-- Embedding of `PolicyGate::same_requirement` (`gate.rs` lines 227-235). -/
def PolicyGate.same_requirement (_self : PolicyGate) (a b : PolicyReq) : Bool :=
  match a, b with
  | .Authenticated, .Authenticated => true
  | .Authorized a1, .Authorized a2 => a1 == a2
  | _, _ => false

/-- Embedding of `PolicyGate::require` (`gate.rs` lines 72-85): append the
requirement unless an equivalent one is already present. -/
def PolicyGate.require (self : PolicyGate) (req : PolicyReq) : PolicyGate :=
  if self.requirements.any (fun r => self.same_requirement r req) then
    self
  else
    { self with requirements := self.requirements ++ [req] }

/-- Embedding of `PolicyGate::validate_one` (`gate.rs` lines 167-212): both
requirement forms fail with kind `Unauthenticated` when no principal is
present; any present principal satisfies any requirement. -/
def PolicyGate.validate_one (self : PolicyGate) (req : PolicyReq) :
    Except Violation Unit :=
  match req with
  | .Authenticated =>
      if self.meta.principal.isNone then
        .error (Violation.new .Unauthenticated "Authentication required")
      else
        .ok ()
  | .Authorized _ =>
      if self.meta.principal.isNone then
        .error (Violation.new .Unauthenticated
          "Cannot authorize unauthenticated principal")
      else
        .ok ()

/-- Helper for `validate_all`: validate requirements in order, failing fast. -/
def PolicyGate.validate_list (self : PolicyGate) :
    List PolicyReq → Except Violation Unit
  | [] => .ok ()
  | r :: rs =>
      match self.validate_one r with
      | .error v => .error v
      | .ok _ => self.validate_list rs

/-- Embedding of `PolicyGate::validate_all` (`gate.rs` lines 159-164). -/
def PolicyGate.validate_all (self : PolicyGate) : Except Violation Unit :=
  self.validate_list self.requirements

/-- Embedding of `PolicyGate::requires_authorization`
(`gate.rs` lines 217-221). -/
def PolicyGate.requires_authorization (self : PolicyGate) (action : String) :
    Bool :=
  self.requirements.any fun req =>
    match req with
    | .Authorized a => a == action
    | _ => false

/-- Embedding of `PolicyGate::build` (`gate.rs` lines 121-152): validate all
requirements, then grant each standard capability exactly when a matching
`Authorized` requirement is present. -/
def PolicyGate.build (self : PolicyGate) : Except Violation Ctx :=
  match self.validate_all with
  | .error v => .error v
  | .ok _ =>
      let log_cap := if self.requires_authorization actions.LOG
        then some LogCap.new else none
      let http_cap := if self.requires_authorization actions.HTTP
        then some HttpCap.new else none
      let audit_cap := if self.requires_authorization actions.AUDIT
        then some AuditCap.new else none
      .ok (Ctx.new_authorized self.meta.request_id self.meta.principal
        log_cap http_cap audit_cap)

/-- Kind of the violation produced by `build`, or `none` on success. -/
def buildErrKind (g : PolicyGate) : Option ViolationKind :=
  match g.build with
  | .error v => some v.kind
  | .ok _ => none

/-- Observable outcome of `build`: `none` on failure, and on success the
presence of the three capability tokens. -/
def buildCaps (g : PolicyGate) : Option (Bool × Bool × Bool) :=
  match g.build with
  | .ok c => some (c.log_cap.isSome, c.http_cap.isSome, c.audit_cap.isSome)
  | .error _ => none

/-- Whether an `Except` value is a success. -/
def exceptIsOk {ε α : Type} : Except ε α → Bool
  | .ok _ => true
  | .error _ => false

/-- Gate obtained by accumulating a list of requirements through `require`. -/
def gateOf (meta : RequestMeta) (l : List PolicyReq) : PolicyGate :=
  l.foldl PolicyGate.require (PolicyGate.new meta)

/-! ## Sink (`sink.rs`) -/

/-- Embedding of `SinkErrorKind` (`sink.rs`). -/
inductive SinkErrorKind where
  | Unverified
  | Io
  | Full
deriving DecidableEq

/-- Embedding of `SinkError` (`sink.rs`): kind plus optional message. -/
structure SinkError where
  kind : SinkErrorKind
  message : Option String
deriving DecidableEq

/-- Embedding of `SinkError::new`. -/
def SinkError.new (kind : SinkErrorKind) : SinkError :=
  ⟨kind, none⟩

/-- Embedding of the provided default method `Sink::sink_untrusted`
(`sink.rs` lines 171-173): for any sink state of any type, ignore the tainted
value, return kind `Unverified`, and leave the state untouched. -/
def sinkUntrustedDefault {α σ : Type} (self : σ) (_value : Tainted α) :
    Except SinkError Unit × σ :=
  (.error (SinkError.new .Unverified), self)

/-- Embedding of `VecSink` (`sink.rs`): an in-memory collector of strings. -/
structure VecSink where
  values : List String
deriving DecidableEq

/-- Embedding of `VecSink::new`. -/
def VecSink.new : VecSink :=
  ⟨[]⟩

/-- Embedding of `VecSink::len`. -/
def VecSink.len (self : VecSink) : Nat :=
  self.values.length

/-- Embedding of `VecSink::is_empty`. -/
def VecSink.is_empty (self : VecSink) : Bool :=
  self.values.isEmpty

/-- Embedding of `<VecSink as Sink<String>>::sink` (`sink.rs` lines 373-380):
append the verified string and succeed. -/
def VecSink.sink (self : VecSink) (value : Verified String) :
    Except SinkError Unit × VecSink :=
  (.ok (), ⟨self.values ++ [value.inner]⟩)

/-- `sink_untrusted` as inherited by `VecSink` from the trait default. -/
def VecSink.sink_untrusted (self : VecSink) (value : Tainted String) :
    Except SinkError Unit × VecSink :=
  sinkUntrustedDefault self value

/-! ## Secret wrapper (`secret.rs`) -/

/-- Embedding of `Secret<T>` (`secret.rs`): wraps a sensitive value. -/
structure Secret (α : Type) where
  inner : α

/-- Embedding of `Secret::new`. -/
def Secret.new {α : Type} (value : α) : Secret α :=
  ⟨value⟩

/-- Embedding of `Secret::expose_secret`. -/
def Secret.expose_secret {α : Type} (s : Secret α) : α :=
  s.inner

/-- Embedding of `impl Debug for Secret<T>` (`secret.rs` lines 64-71): the
formatter writes the fixed marker, ignoring the wrapped value. -/
def Secret.fmtDebug {α : Type} (_s : Secret α) : String :=
  "[REDACTED]"

/-- Embedding of `impl Display for Secret<T>` (`secret.rs` lines 73-80): the
formatter writes the fixed marker, ignoring the wrapped value. -/
def Secret.fmtDisplay {α : Type} (_s : Secret α) : String :=
  "[REDACTED]"

/-! ## Audit events (`audit/event.rs`) -/

/-- Embedding of `AuditEventKind` (`audit/event.rs`). -/
inductive AuditEventKind where
  | Authentication
  | Authorization
  | ResourceAccess
  | StateChange
  | AdminAction
  | SecurityEvent
deriving DecidableEq

/-- Embedding of `AuditOutcome` (`audit/event.rs`). -/
inductive AuditOutcome where
  | Success
  | Denied
  | Error
deriving DecidableEq

/-- Embedding of `AuditEvent` (`audit/event.rs`): string fields are lists of
characters so the control-character scrubbing can be stated per character. -/
structure AuditEvent where
  request_id : List Char
  principal : Option (List Char)
  kind : AuditEventKind
  outcome : AuditOutcome
  action : Option (List Char)
  resource_id : Option (List Char)
  method : Option (List Char)
  redacted_url : Option (List Char)
  body_len : Option Nat
deriving DecidableEq

/-- Embedding of `AuditEvent::sanitize_field` (`audit/event.rs` lines
136-147): replace every character with `c.is_control() || c == '\u{007F}'`
by a single space, keep every other character. -/
def AuditEvent.sanitize_field (value : List Char) : List Char :=
  value.map fun c =>
    if rustCharIsControl c || c.toNat == 0x7F then ' ' else c

/-- Embedding of `AuditEvent::new` (`audit/event.rs` lines 173-190). -/
def AuditEvent.new (request_id : List Char) (principal : Option (List Char))
    (kind : AuditEventKind) (outcome : AuditOutcome) : AuditEvent :=
  ⟨AuditEvent.sanitize_field request_id,
   principal.map AuditEvent.sanitize_field,
   kind, outcome, none, none, none, none, none⟩

/-- Embedding of `AuditEvent::with_action`. -/
def AuditEvent.with_action (self : AuditEvent) (action : List Char) :
    AuditEvent :=
  { self with action := some (AuditEvent.sanitize_field action) }

/-- Embedding of `AuditEvent::with_resource_id`. -/
def AuditEvent.with_resource_id (self : AuditEvent) (resource_id : List Char) :
    AuditEvent :=
  { self with resource_id := some (AuditEvent.sanitize_field resource_id) }

/-- Embedding of `AuditEvent::with_method`. -/
def AuditEvent.with_method (self : AuditEvent) (method : List Char) :
    AuditEvent :=
  { self with method := some (AuditEvent.sanitize_field method) }

/-- Embedding of `AuditEvent::with_redacted_url`. -/
def AuditEvent.with_redacted_url (self : AuditEvent) (url : List Char) :
    AuditEvent :=
  { self with redacted_url := some (AuditEvent.sanitize_field url) }

/-- Embedding of `AuditEvent::with_body_len`. -/
def AuditEvent.with_body_len (self : AuditEvent) (len : Nat) : AuditEvent :=
  { self with body_len := some len }

/-- Decidable equality of `Except` results, used to evaluate the embedding
on concrete inputs. -/
instance instDecEqExcept {ε α : Type} [DecidableEq ε] [DecidableEq α] :
    DecidableEq (Except ε α) := fun a b =>
  match a, b with
  | .ok x, .ok y =>
      if h : x = y then .isTrue (by rw [h]) else .isFalse (by simp [h])
  | .error x, .error y =>
      if h : x = y then .isTrue (by rw [h]) else .isFalse (by simp [h])
  | .ok _, .error _ => .isFalse (by simp)
  | .error _, .ok _ => .isFalse (by simp)

/-! ## Lemmas about the policy gate -/

theorem same_requirement_iff (g : PolicyGate) (a b : PolicyReq) :
    g.same_requirement a b = true ↔ a = b := by
  cases a <;> cases b <;> simp [PolicyGate.same_requirement]

theorem require_meta (g : PolicyGate) (req : PolicyReq) :
    (g.require req).meta = g.meta := by
  unfold PolicyGate.require
  split <;> rfl

theorem mem_require (g : PolicyGate) (req r : PolicyReq) :
    r ∈ (g.require req).requirements ↔ r ∈ g.requirements ∨ r = req := by
  unfold PolicyGate.require
  split
  next h =>
    simp only [List.any_eq_true] at h
    obtain ⟨x, hx, hsame⟩ := h
    rw [same_requirement_iff] at hsame
    subst hsame
    constructor
    · exact fun hr => Or.inl hr
    · rintro (hr | rfl) <;> assumption
  next h =>
    simp [List.mem_append]

theorem require_requirements_ne_nil (g : PolicyGate) (req : PolicyReq) :
    (g.require req).requirements ≠ [] := by
  unfold PolicyGate.require
  split
  next h =>
    simp only [List.any_eq_true] at h
    obtain ⟨x, hx, _⟩ := h
    exact List.ne_nil_of_mem hx
  next h => simp

theorem require_of_mem (g : PolicyGate) (req : PolicyReq)
    (h : req ∈ g.requirements) : g.require req = g := by
  unfold PolicyGate.require
  have hany : (g.requirements.any fun r => g.same_requirement r req) = true :=
    List.any_eq_true.mpr ⟨req, h, (same_requirement_iff g req req).mpr rfl⟩
  simp [hany]

theorem require_idem (g : PolicyGate) (req : PolicyReq) :
    (g.require req).require req = g.require req :=
  require_of_mem _ _ ((mem_require g req req).mpr (Or.inr rfl))

theorem foldl_require_meta (l : List PolicyReq) (g : PolicyGate) :
    (l.foldl PolicyGate.require g).meta = g.meta := by
  induction l generalizing g with
  | nil => rfl
  | cons a l ih => rw [List.foldl_cons, ih, require_meta]

theorem foldl_require_mem (l : List PolicyReq) (g : PolicyGate) (r : PolicyReq) :
    r ∈ (l.foldl PolicyGate.require g).requirements ↔
      r ∈ g.requirements ∨ r ∈ l := by
  induction l generalizing g with
  | nil => simp
  | cons a l ih =>
    rw [List.foldl_cons, ih, mem_require]
    simp [List.mem_cons, or_assoc]

theorem foldl_require_eq_nil (l : List PolicyReq) (g : PolicyGate) :
    (l.foldl PolicyGate.require g).requirements = [] ↔
      g.requirements = [] ∧ l = [] := by
  induction l generalizing g with
  | nil => simp
  | cons a l ih =>
    rw [List.foldl_cons, ih]
    simp [require_requirements_ne_nil]

theorem validate_one_some (g : PolicyGate) (req : PolicyReq) (p : Principal)
    (h : g.meta.principal = some p) : g.validate_one req = .ok () := by
  cases req <;> simp [PolicyGate.validate_one, h]

theorem validate_one_none (g : PolicyGate) (req : PolicyReq)
    (h : g.meta.principal = none) :
    ∃ m, g.validate_one req = .error (Violation.new .Unauthenticated m) := by
  cases req with
  | Authenticated =>
      exact ⟨"Authentication required", by simp [PolicyGate.validate_one, h]⟩
  | Authorized a =>
      exact ⟨"Cannot authorize unauthenticated principal",
        by simp [PolicyGate.validate_one, h]⟩

theorem validate_one_err_kind (g : PolicyGate) (req : PolicyReq) (v : Violation)
    (h : g.validate_one req = .error v) : v.kind = .Unauthenticated := by
  cases req <;> simp only [PolicyGate.validate_one] at h <;> split at h
  all_goals
    first
      | (simp only [Except.error.injEq] at h; subst h; rfl)
      | simp at h

theorem validate_list_some (g : PolicyGate) (p : Principal)
    (h : g.meta.principal = some p) (l : List PolicyReq) :
    g.validate_list l = .ok () := by
  induction l with
  | nil => rfl
  | cons a l ih => simp [PolicyGate.validate_list, validate_one_some g a p h, ih]

theorem validate_list_none (g : PolicyGate) (h : g.meta.principal = none)
    (l : List PolicyReq) (hl : l ≠ []) :
    ∃ m, g.validate_list l = .error (Violation.new .Unauthenticated m) := by
  cases l with
  | nil => exact absurd rfl hl
  | cons a l =>
      obtain ⟨m, hm⟩ := validate_one_none g a h
      exact ⟨m, by simp [PolicyGate.validate_list, hm]⟩

theorem validate_list_err_kind (g : PolicyGate) (l : List PolicyReq)
    (v : Violation) (h : g.validate_list l = .error v) :
    v.kind = .Unauthenticated := by
  induction l with
  | nil => simp [PolicyGate.validate_list] at h
  | cons a l ih =>
      rw [PolicyGate.validate_list] at h
      cases hv : g.validate_one a with
      | error v2 =>
          rw [hv] at h
          simp only [Except.error.injEq] at h
          rw [← h]
          exact validate_one_err_kind g a v2 hv
      | ok u =>
          rw [hv] at h
          exact ih h

theorem build_err_kind (g : PolicyGate) (v : Violation)
    (h : g.build = .error v) : v.kind = .Unauthenticated := by
  unfold PolicyGate.build PolicyGate.validate_all at h
  cases hv : g.validate_list g.requirements with
  | error v2 =>
      rw [hv] at h
      simp only [Except.error.injEq] at h
      rw [← h]
      exact validate_list_err_kind g g.requirements v2 hv
  | ok u =>
      rw [hv] at h
      simp at h

theorem build_ok_of_some (g : PolicyGate) (p : Principal)
    (h : g.meta.principal = some p) :
    g.build = .ok (Ctx.new_authorized g.meta.request_id g.meta.principal
      (if g.requires_authorization actions.LOG then some LogCap.new else none)
      (if g.requires_authorization actions.HTTP then some HttpCap.new else none)
      (if g.requires_authorization actions.AUDIT then some AuditCap.new else none)) := by
  unfold PolicyGate.build PolicyGate.validate_all
  rw [validate_list_some g p h]

theorem build_ok_of_no_requirements (g : PolicyGate)
    (h : g.requirements = []) :
    g.build = .ok (Ctx.new_authorized g.meta.request_id g.meta.principal
      none none none) := by
  unfold PolicyGate.build PolicyGate.validate_all
  rw [h]
  simp [PolicyGate.validate_list, PolicyGate.requires_authorization, h]

theorem requires_authorization_iff (g : PolicyGate) (a : String) :
    g.requires_authorization a = true ↔
      PolicyReq.Authorized a ∈ g.requirements := by
  unfold PolicyGate.requires_authorization
  rw [List.any_eq_true]
  constructor
  · rintro ⟨r, hr, hmatch⟩
    cases r with
    | Authenticated => simp at hmatch
    | Authorized b =>
        simp only [beq_iff_eq] at hmatch
        subst hmatch
        exact hr
  · intro h
    exact ⟨PolicyReq.Authorized a, h, by simp⟩

theorem cap_ite_isSome {γ : Type} (b : Bool) (x : γ) :
    (if b = true then some x else none).isSome = b := by
  cases b <;> simp

theorem requires_authorization_eq_decide (g : PolicyGate) (a : String) :
    g.requires_authorization a =
      decide (PolicyReq.Authorized a ∈ g.requirements) := by
  apply Bool.eq_iff_iff.mpr
  simp [requires_authorization_iff]

theorem buildCaps_of_some (g : PolicyGate) (p : Principal)
    (hp : g.meta.principal = some p) :
    buildCaps g = some
      (decide (PolicyReq.Authorized "log" ∈ g.requirements),
       decide (PolicyReq.Authorized "http" ∈ g.requirements),
       decide (PolicyReq.Authorized "audit" ∈ g.requirements)) := by
  unfold buildCaps
  rw [build_ok_of_some g p hp]
  simp only [Ctx.new_authorized]
  rw [show actions.LOG = "log" from rfl, show actions.HTTP = "http" from rfl,
    show actions.AUDIT = "audit" from rfl]
  simp only [cap_ite_isSome, requires_authorization_eq_decide]

theorem buildCaps_of_nil (g : PolicyGate) (h : g.requirements = []) :
    buildCaps g = some (false, false, false) := by
  unfold buildCaps
  rw [build_ok_of_no_requirements g h]
  rfl

theorem buildCaps_of_none_ne_nil (g : PolicyGate)
    (hp : g.meta.principal = none) (h : g.requirements ≠ []) :
    buildCaps g = none := by
  obtain ⟨m, hm⟩ := validate_list_none g hp g.requirements h
  unfold buildCaps PolicyGate.build PolicyGate.validate_all
  rw [hm]

theorem gateOf_requirements_ne_nil (meta : RequestMeta) (l : List PolicyReq)
    (hl : l ≠ []) : (gateOf meta l).requirements ≠ [] := by
  rw [gateOf]
  intro h
  exact hl ((foldl_require_eq_nil l (PolicyGate.new meta)).mp h).2

theorem is_control_char_eq_specControlChar :
    StringSanitizer.is_control_char = specControlChar := by
  funext c
  apply Bool.eq_iff_iff.mpr
  simp only [StringSanitizer.is_control_char, specControlChar, specIsC0,
    specIsC1, rustCharIsControl, Bool.or_eq_true, Bool.and_eq_true,
    decide_eq_true_eq, beq_iff_eq]
  omega

/-! ## Claim theorems -/

/-- Claim C1: for every RequestMeta whose principal is absent, building a
PolicyGate whose accumulated requirements include `Authenticated` returns an
error whose Violation kind is `Unauthenticated`, and such a build never
returns a successful (Authorized) context. -/
theorem build_fails_unauthenticated_when_principal_absent (g : PolicyGate)
    (hp : g.meta.principal = none)
    (hreq : PolicyReq.Authenticated ∈ g.requirements) :
    buildErrKind g = some ViolationKind.Unauthenticated ∧
      exceptIsOk g.build = false := by
  obtain ⟨m, hm⟩ :=
    validate_list_none g hp g.requirements (List.ne_nil_of_mem hreq)
  have hb : g.build = .error (Violation.new .Unauthenticated m) := by
    unfold PolicyGate.build PolicyGate.validate_all
    rw [hm]
  rw [buildErrKind, hb]
  exact ⟨rfl, rfl⟩

/-- Witness for claim C1, on the gate with request id "req-1", no principal
and the single requirement `Authenticated`. -/
theorem build_fails_unauthenticated_when_principal_absent_witness :
    (PolicyGate.mk ⟨"req-1", none⟩ [PolicyReq.Authenticated]).meta.principal = none ∧
    PolicyReq.Authenticated ∈
      (PolicyGate.mk ⟨"req-1", none⟩ [PolicyReq.Authenticated]).requirements ∧
    (buildErrKind (PolicyGate.mk ⟨"req-1", none⟩ [PolicyReq.Authenticated]) =
        some ViolationKind.Unauthenticated ∧
      exceptIsOk (PolicyGate.mk ⟨"req-1", none⟩ [PolicyReq.Authenticated]).build = false) :=
  ⟨rfl, by simp,
    build_fails_unauthenticated_when_principal_absent _ rfl (by simp)⟩

/-- Claim C2: for every RequestMeta whose principal is present, `build`
succeeds, and the resulting context carries the logging
(resp. outbound-call, resp. audit) capability token if and only if an
`Authorized` requirement naming the standard action "log" (resp. "http",
resp. "audit") is among the accumulated requirements; `Authorized`
requirements naming any other action grant no standard token. -/
theorem build_grants_caps_iff_matching_authorized_requirement (g : PolicyGate)
    (p : Principal) (hp : g.meta.principal = some p) :
    buildCaps g = some
      (decide (PolicyReq.Authorized "log" ∈ g.requirements),
       decide (PolicyReq.Authorized "http" ∈ g.requirements),
       decide (PolicyReq.Authorized "audit" ∈ g.requirements)) :=
  buildCaps_of_some g p hp

/-- Witness for claim C2, on a gate with a principal and the requirements
`Authenticated`, `Authorized "log"` and `Authorized "db"`: the log token is
granted and the http and audit tokens are not, the non-standard action "db"
granting nothing. -/
theorem build_grants_caps_iff_matching_authorized_requirement_witness :
    (PolicyGate.mk ⟨"req-2", some ⟨"u1", "Alice"⟩⟩
        [PolicyReq.Authenticated, PolicyReq.Authorized "log",
         PolicyReq.Authorized "db"]).meta.principal = some ⟨"u1", "Alice"⟩ ∧
    buildCaps (PolicyGate.mk ⟨"req-2", some ⟨"u1", "Alice"⟩⟩
        [PolicyReq.Authenticated, PolicyReq.Authorized "log",
         PolicyReq.Authorized "db"]) = some
      (decide (PolicyReq.Authorized "log" ∈
        (PolicyGate.mk ⟨"req-2", some ⟨"u1", "Alice"⟩⟩
          [PolicyReq.Authenticated, PolicyReq.Authorized "log",
           PolicyReq.Authorized "db"]).requirements),
       decide (PolicyReq.Authorized "http" ∈
        (PolicyGate.mk ⟨"req-2", some ⟨"u1", "Alice"⟩⟩
          [PolicyReq.Authenticated, PolicyReq.Authorized "log",
           PolicyReq.Authorized "db"]).requirements),
       decide (PolicyReq.Authorized "audit" ∈
        (PolicyGate.mk ⟨"req-2", some ⟨"u1", "Alice"⟩⟩
          [PolicyReq.Authenticated, PolicyReq.Authorized "log",
           PolicyReq.Authorized "db"]).requirements)) :=
  ⟨rfl, build_grants_caps_iff_matching_authorized_requirement _ _ rfl⟩

/-- Claim C3: for every input string and every StringSanitizer with positive
configured maximum length, `sanitize` follows exactly the specification's
reference algorithm `sanitizeSpec`: trim, fail Empty on empty trimmed input,
fail ContainsControlChars on any remaining C0, C1 or DEL character, fail
TooLong above the maximum length (exactly the maximum succeeds), else return
the trimmed string as Verified. -/
theorem sanitize_follows_spec_algorithm (san : StringSanitizer)
    (input : Tainted (List Char)) (_hpos : 0 < san.max_len) :
    san.sanitize input = sanitizeSpec san input := by
  simp only [StringSanitizer.sanitize, sanitizeSpec,
    is_control_char_eq_specControlChar]

/-- Witness for claim C3, at maximum length 10 on the string of eleven
letters a, which exceeds the maximum. -/
theorem sanitize_follows_spec_algorithm_witness :
    0 < (StringSanitizer.mk 10).max_len ∧
    (StringSanitizer.mk 10).sanitize ⟨List.replicate 11 'a'⟩ =
      sanitizeSpec (StringSanitizer.mk 10) ⟨List.replicate 11 'a'⟩ :=
  ⟨by decide, sanitize_follows_spec_algorithm _ _ (by decide)⟩

/-- Counterexample to claim C4 as stated: the string of space, newline,
letter a has the control character newline at position 1, which is neither
leading (position 0) nor trailing (the last position), yet `sanitize`
succeeds, because the newline sits inside the leading whitespace run and is
removed by trimming. -/
theorem sanitize_interior_control_char_counterexample :
    ([' ', '\n', 'a'].getD 1 'x' = '\n') ∧ (1 : Nat) ≠ 0 ∧
      (1 : Nat) ≠ ([' ', '\n', 'a'] : List Char).length - 1 ∧
      StringSanitizer.is_control_char '\n' = true ∧
      StringSanitizer.sanitize ⟨256⟩ ⟨[' ', '\n', 'a']⟩ =
        .ok (Verified.new_unchecked ['a']) := by
  refine ⟨rfl, by decide, by decide, by decide, rfl⟩

/-- Claim C4 as amended: for every input string such that some control
character survives trimming (is a character of the trimmed string),
`sanitize` fails with kind ContainsControlChars. -/
theorem sanitize_fails_on_control_char_surviving_trim
    (san : StringSanitizer) (s : List Char) (c : Char)
    (hc : c ∈ rustTrim s)
    (hctl : StringSanitizer.is_control_char c = true) :
    sanitizeErrKind san ⟨s⟩ =
      some SanitizationErrorKind.ContainsControlChars := by
  have hne : rustTrim s ≠ [] := List.ne_nil_of_mem hc
  have hempty : (rustTrim s).isEmpty = false := by
    simpa [List.isEmpty_iff] using hne
  have hany : (rustTrim s).any StringSanitizer.is_control_char = true :=
    List.any_eq_true.mpr ⟨c, hc, hctl⟩
  simp [sanitizeErrKind, StringSanitizer.sanitize, Tainted.into_inner,
    hempty, hany, SanitizationError.new]

/-- Witness for amended claim C4, on the string letter a, newline, letter b,
whose interior newline survives trimming. -/
theorem sanitize_fails_on_control_char_surviving_trim_witness :
    '\n' ∈ rustTrim ['a', '\n', 'b'] ∧
    StringSanitizer.is_control_char '\n' = true ∧
    sanitizeErrKind (StringSanitizer.mk 256) ⟨['a', '\n', 'b']⟩ =
      some SanitizationErrorKind.ContainsControlChars :=
  ⟨by decide, by decide,
    sanitize_fails_on_control_char_surviving_trim _ _ '\n'
      (by decide) (by decide)⟩

/-- Claim C5: for every wrapped value of every type, both Debug-style and
Display-style formatting of the Secret wrapper produce exactly the fixed
redaction marker, independently of the wrapped value and its type, so the
output never contains the wrapped value's textual representation. -/
theorem secret_formatting_always_redacted (α : Type) (v : α) :
    Secret.fmtDebug (Secret.new v) = "[REDACTED]" ∧
      Secret.fmtDisplay (Secret.new v) = "[REDACTED]" :=
  ⟨rfl, rfl⟩

/-- Claim C6: on an Authorized-state context, each capability-checked
accessor (log, http, audit) returns its facade exactly when the matching
capability token is present, and otherwise returns a Violation of kind
MissingLogCapability, MissingHttpCapability or MissingAuditCapability
respectively. -/
theorem ctx_accessors_iff_capability_tokens (ctx : Ctx) :
    (ctx.log = .ok (PolicyLog.new ctx.request_id) ↔ ctx.log_cap.isSome = true) ∧
    ((∃ v, ctx.log = .error v ∧ v.kind = .MissingLogCapability) ↔
      ctx.log_cap.isSome = false) ∧
    (ctx.http = .ok PolicyHttp.new ↔ ctx.http_cap.isSome = true) ∧
    ((∃ v, ctx.http = .error v ∧ v.kind = .MissingHttpCapability) ↔
      ctx.http_cap.isSome = false) ∧
    (ctx.audit = .ok PolicyAudit.new ↔ ctx.audit_cap.isSome = true) ∧
    ((∃ v, ctx.audit = .error v ∧ v.kind = .MissingAuditCapability) ↔
      ctx.audit_cap.isSome = false) := by
  refine ⟨?_, ?_, ?_, ?_, ?_, ?_⟩
  · by_cases h : ctx.log_cap.isSome <;> simp [Ctx.log, h, Violation.new]
  · by_cases h : ctx.log_cap.isSome <;> simp [Ctx.log, h, Violation.new]
  · by_cases h : ctx.http_cap.isSome <;> simp [Ctx.http, h, Violation.new]
  · by_cases h : ctx.http_cap.isSome <;> simp [Ctx.http, h, Violation.new]
  · by_cases h : ctx.audit_cap.isSome <;> simp [Ctx.audit, h, Violation.new]
  · by_cases h : ctx.audit_cap.isSome <;> simp [Ctx.audit, h, Violation.new]

/-- Claim C7: adding the same PolicyRequirement n times (n at least 1)
produces the same gate state as adding it once, and permuting the order in
which requirements are accumulated changes neither the success of `build`
nor the set of capability tokens granted on success. -/
theorem require_idempotent_and_build_order_irrelevant
    (meta : RequestMeta) (g : PolicyGate) (req : PolicyReq) (n : Nat)
    (l1 l2 : List PolicyReq) (hn : 1 ≤ n) (hperm : l1.Perm l2) :
    (fun gg => PolicyGate.require gg req)^[n] g = g.require req ∧
      buildCaps (gateOf meta l1) = buildCaps (gateOf meta l2) := by
  constructor
  · clear hperm
    induction n with
    | zero => omega
    | succ m ih =>
        cases Nat.eq_zero_or_pos m with
        | inl h0 => subst h0; simp
        | inr hpos =>
            rw [Function.iterate_succ_apply', ih hpos, require_idem]
  · have hmeta1 : (gateOf meta l1).meta = meta := foldl_require_meta l1 _
    have hmeta2 : (gateOf meta l2).meta = meta := foldl_require_meta l2 _
    have hmem : ∀ r : PolicyReq,
        r ∈ (gateOf meta l1).requirements ↔
          r ∈ (gateOf meta l2).requirements := by
      intro r
      rw [gateOf, gateOf, foldl_require_mem, foldl_require_mem]
      constructor
      · rintro (h | h)
        · exact Or.inl h
        · exact Or.inr (hperm.mem_iff.mp h)
      · rintro (h | h)
        · exact Or.inl h
        · exact Or.inr (hperm.mem_iff.mpr h)
    cases hp : meta.principal with
    | some p =>
        rw [buildCaps_of_some _ p (by rw [hmeta1, hp]),
            buildCaps_of_some _ p (by rw [hmeta2, hp])]
        simp only [Option.some.injEq, Prod.mk.injEq]
        exact ⟨decide_eq_decide.mpr (hmem _), decide_eq_decide.mpr (hmem _),
          decide_eq_decide.mpr (hmem _)⟩
    | none =>
        by_cases hl : l1 = []
        · have hl2 : l2 = [] := by
            subst hl
            exact hperm.symm.eq_nil
          subst hl
          subst hl2
          rfl
        · have hl2 : l2 ≠ [] := by
            intro h
            subst h
            exact hl hperm.eq_nil
          rw [buildCaps_of_none_ne_nil _ (by rw [hmeta1, hp])
              (gateOf_requirements_ne_nil meta l1 hl),
            buildCaps_of_none_ne_nil _ (by rw [hmeta2, hp])
              (gateOf_requirements_ne_nil meta l2 hl2)]

/-- Witness for claim C7: three repetitions of `require Authenticated`
collapse to one, and swapping the two requirements Authenticated and
Authorized "log" leaves the build outcome unchanged. -/
theorem require_idempotent_and_build_order_irrelevant_witness :
    (1 : Nat) ≤ 3 ∧
    List.Perm [PolicyReq.Authenticated, PolicyReq.Authorized "log"]
      [PolicyReq.Authorized "log", PolicyReq.Authenticated] ∧
    ((fun gg => PolicyGate.require gg PolicyReq.Authenticated)^[3]
        (PolicyGate.new ⟨"req-7", some ⟨"u1", "Alice"⟩⟩) =
      (PolicyGate.new ⟨"req-7", some ⟨"u1", "Alice"⟩⟩).require
        PolicyReq.Authenticated ∧
      buildCaps (gateOf ⟨"req-7", some ⟨"u1", "Alice"⟩⟩
          [PolicyReq.Authenticated, PolicyReq.Authorized "log"]) =
        buildCaps (gateOf ⟨"req-7", some ⟨"u1", "Alice"⟩⟩
          [PolicyReq.Authorized "log", PolicyReq.Authenticated])) :=
  ⟨by decide, List.Perm.swap _ _ _,
    require_idempotent_and_build_order_irrelevant
      ⟨"req-7", some ⟨"u1", "Alice"⟩⟩
      (PolicyGate.new ⟨"req-7", some ⟨"u1", "Alice"⟩⟩)
      PolicyReq.Authenticated 3 _ _ (by decide) (List.Perm.swap _ _ _)⟩

/-- Claim C8: for every tainted value and every sink (modelled generically by
the trait default method, and concretely by VecSink), `sink_untrusted`
unconditionally returns an error of kind Unverified and leaves the sink
state unchanged; in particular a freshly created VecSink stays empty. -/
theorem sink_untrusted_always_fails_and_leaves_state (σ α : Type)
    (state : σ) (t : Tainted α) (s : VecSink) (t2 : Tainted String) :
    sinkUntrustedDefault state t =
      (.error (SinkError.new .Unverified), state) ∧
    s.sink_untrusted t2 = (.error (SinkError.new .Unverified), s) ∧
    (VecSink.new.sink_untrusted t2).2 = VecSink.new ∧
    VecSink.new.is_empty = true ∧
    (VecSink.new.sink_untrusted t2).2.values = [] :=
  ⟨rfl, rfl, rfl, rfl, rfl⟩

/-- Claim C9: AuditEvent construction scrubs every accepted string field
(request id, principal, action, resource id, method, redacted URL) by
replacing each control character (C0 range, DEL, C1 range) with a single
space and leaving every other character unchanged, so the stored field has
the same character count as the input and contains no control characters. -/
theorem audit_event_fields_scrubbed (s rid : List Char)
    (pr : Option (List Char)) (k : AuditEventKind) (o : AuditOutcome)
    (e : AuditEvent) :
    (AuditEvent.sanitize_field s).length = s.length ∧
    (AuditEvent.sanitize_field s).all
      (fun c => !(rustCharIsControl c || c.toNat == 0x7F)) = true ∧
    (s.zip (AuditEvent.sanitize_field s)).all
      (fun p => if rustCharIsControl p.1 || p.1.toNat == 0x7F
        then p.2 == ' ' else p.2 == p.1) = true ∧
    (AuditEvent.new rid pr k o).request_id = AuditEvent.sanitize_field rid ∧
    (AuditEvent.new rid pr k o).principal = pr.map AuditEvent.sanitize_field ∧
    (e.with_action s).action = some (AuditEvent.sanitize_field s) ∧
    (e.with_resource_id s).resource_id = some (AuditEvent.sanitize_field s) ∧
    (e.with_method s).method = some (AuditEvent.sanitize_field s) ∧
    (e.with_redacted_url s).redacted_url =
      some (AuditEvent.sanitize_field s) := by
  refine ⟨by simp [AuditEvent.sanitize_field], ?_, ?_, rfl, rfl, rfl, rfl,
    rfl, rfl⟩
  · rw [List.all_eq_true]
    intro c hc
    rw [AuditEvent.sanitize_field, List.mem_map] at hc
    obtain ⟨c0, _, rfl⟩ := hc
    cases h : (rustCharIsControl c0 || c0.toNat == 0x7F) with
    | true => simp only [h, if_true]; decide
    | false => simp only [h, if_false, Bool.not_eq_true']; exact h
  · induction s with
    | nil => rfl
    | cons c cs ih =>
        rw [AuditEvent.sanitize_field, List.map_cons, List.zip_cons_cons,
          List.all_cons]
        rw [AuditEvent.sanitize_field] at ih
        rw [ih, Bool.and_true]
        cases h : (rustCharIsControl c || c.toNat == 0x7F) with
        | true => simp [h]
        | false => simp [h]

/-- Claim C10: for every RequestMeta whose principal is absent, building a
PolicyGate whose requirements include an `Authorized` requirement for any
action, even without an `Authenticated` requirement, fails with a Violation
of kind Unauthenticated; moreover every error ever produced by `build` has
kind Unauthenticated, so the kind Unauthorized is never produced. -/
theorem build_fails_unauthenticated_for_authorized_requirement
    (g : PolicyGate) (X : String) (g2 : PolicyGate) (v2 : Violation)
    (hp : g.meta.principal = none)
    (hreq : PolicyReq.Authorized X ∈ g.requirements)
    (h2 : g2.build = .error v2) :
    (buildErrKind g = some ViolationKind.Unauthenticated ∧
      exceptIsOk g.build = false) ∧
      v2.kind = ViolationKind.Unauthenticated := by
  obtain ⟨m, hm⟩ :=
    validate_list_none g hp g.requirements (List.ne_nil_of_mem hreq)
  have hb : g.build = .error (Violation.new .Unauthenticated m) := by
    unfold PolicyGate.build PolicyGate.validate_all
    rw [hm]
  refine ⟨?_, build_err_kind g2 v2 h2⟩
  rw [buildErrKind, hb]
  exact ⟨rfl, rfl⟩

/-- Witness for claim C10, on the gate with no principal and the single
requirement `Authorized "db"`. -/
theorem build_fails_unauthenticated_for_authorized_requirement_witness :
    (PolicyGate.mk ⟨"req-3", none⟩ [PolicyReq.Authorized "db"]).meta.principal = none ∧
    PolicyReq.Authorized "db" ∈
      (PolicyGate.mk ⟨"req-3", none⟩ [PolicyReq.Authorized "db"]).requirements ∧
    (PolicyGate.mk ⟨"req-3", none⟩ [PolicyReq.Authorized "db"]).build =
      .error (Violation.new .Unauthenticated
        "Cannot authorize unauthenticated principal") ∧
    ((buildErrKind (PolicyGate.mk ⟨"req-3", none⟩ [PolicyReq.Authorized "db"]) =
        some ViolationKind.Unauthenticated ∧
      exceptIsOk (PolicyGate.mk ⟨"req-3", none⟩ [PolicyReq.Authorized "db"]).build = false) ∧
      (Violation.new ViolationKind.Unauthenticated
        "Cannot authorize unauthenticated principal").kind =
        ViolationKind.Unauthenticated) :=
  ⟨rfl, by simp, rfl,
    build_fails_unauthenticated_for_authorized_requirement _ "db"
      (PolicyGate.mk ⟨"req-3", none⟩ [PolicyReq.Authorized "db"])
      (Violation.new ViolationKind.Unauthenticated
        "Cannot authorize unauthenticated principal")
      rfl (by simp) rfl⟩
